import Mathlib

/-!
Verification of the apple-tv-controller core against its sources.

Shallow embedding of:
- src/apple_tv/models.py     (step/scenario validation)
- src/apple_tv/scenarios.py  (scenario execution engine)
- src/apple_tv/scheduler.py  (schedule entries)

Raw JSON-like dictionaries are embedded as structures with optional
fields (a missing key is none).  Python floats are embedded as
rationals, Python ints as integers.  Exceptions are embedded as
Except String results carrying the exact message strings of the source.
-/

/-- Raw step dictionary, as read from scenarios.json.  Each field models
one optional key of the step dict. -/
structure RawStep where
  action : Option String := none
  app : Option String := none
  seconds : Option ℚ := none
  name : Option String := none
  repeatN : Option Int := none
  delay : Option ℚ := none
deriving DecidableEq, Repr

/-- Raw scenario dictionary: a description and a list of raw steps. -/
structure RawScenarioData where
  description : Option String := none
  steps : Option (List RawStep) := none
deriving DecidableEq, Repr

/-- A loaded scenario registry: the scenarios.json mapping in insertion
order (Python dict keys are unique and iterate in insertion order). -/
abbrev Reg := List (String × RawScenarioData)

/-- Python truthiness of an optional string: None and the empty string
are falsy. -/
def falsyS : Option String → Bool
  | none => true
  | some s => s = ""

/-! ## src/apple_tv/models.py -/

/-- VALID_ACTIONS from models.py lines 9-14 (a frozenset; we keep the
literal member list, membership is all that is used). -/
def VALID_ACTIONS : List String :=
  ["launch", "wait",
   "up", "down", "left", "right",
   "select", "menu", "home",
   "play", "pause", "play_pause"]

/-- sorted(VALID_ACTIONS), as used in the error message of
ScenarioStep.__post_init__. -/
def sortedValidActions : List String :=
  ["down", "home", "launch", "left", "menu", "pause",
   "play", "play_pause", "right", "select", "up", "wait"]

/-- Python str.join with a separator, as used by ", ".join and
"\n".join in models.py. -/
def joinWith (sep : String) : List String → String
  | [] => ""
  | [x] => x
  | x :: y :: xs => x ++ sep ++ joinWith sep (y :: xs)

/-- ScenarioStep dataclass of models.py lines 21-28: fields action, app,
seconds, repeat.  There is no delay field and no name field in the
source dataclass. -/
structure ScenarioStep where
  action : String
  app : Option String := none
  seconds : Option ℚ := none
  repeatN : Int := 1
deriving DecidableEq, Repr

/-- Test of the check "self.seconds is not None and self.seconds < 0"
of models.py line 44. -/
def negSeconds : Option ℚ → Bool
  | some s => decide (s < 0)
  | none => false

/-- ScenarioStep.__post_init__ (models.py lines 30-48): validation run at
construction time; raising ValidationError is embedded as Except.error
with the exact message.  When the negSeconds branch fires, seconds is
some s, so seconds.getD 0 is that s. -/
def ScenarioStep.mkChecked (action : String) (app : Option String)
    (seconds : Option ℚ) (rep : Int) : Except String ScenarioStep :=
  if action ∉ VALID_ACTIONS then
    .error ("Action '" ++ action ++ "' invalide. Actions valides: " ++
      joinWith ", " sortedValidActions)
  else if action = "launch" ∧ falsyS app then
    .error "L'action 'launch' requiert le parametre 'app'"
  else if action = "wait" ∧ seconds = none then
    .error "L'action 'wait' requiert le parametre 'seconds'"
  else if negSeconds seconds then
    .error ("'seconds' doit etre positif, recu: " ++ toString (seconds.getD 0))
  else if rep < 1 then
    .error ("'repeat' doit etre >= 1, recu: " ++ toString rep)
  else
    .ok { action := action, app := app, seconds := seconds, repeatN := rep }

/-- ScenarioStep.from_dict (models.py lines 50-58): reads action (default
the empty string), app, seconds and repeat (default 1) from the raw
dict; the name and delay keys are not read. -/
def ScenarioStep.from_dict (d : RawStep) : Except String ScenarioStep :=
  ScenarioStep.mkChecked (d.action.getD "") d.app d.seconds (d.repeatN.getD 1)

/-- Scenario dataclass of models.py lines 61-67. -/
structure Scenario where
  name : String
  description : String := ""
  steps : List ScenarioStep := []
deriving DecidableEq, Repr

/-- Scenario.__post_init__ (models.py lines 69-75). -/
def Scenario.mkChecked (name description : String)
    (steps : List ScenarioStep) : Except String Scenario :=
  if name = "" then
    .error "Le nom du scenario est requis"
  else if steps = [] then
    .error ("Le scenario '" ++ name ++ "' n'a aucune etape")
  else
    .ok { name := name, description := description, steps := steps }

/-- The step-parsing loop of Scenario.from_dict (models.py lines 83-89):
enumerate(steps_data, 1); the first step error is wrapped with the
scenario name and the 1-based step index and re-raised. -/
def parseSteps (name : String) : Nat → List RawStep →
    Except String (List ScenarioStep)
  | _, [] => .ok []
  | i, d :: rest =>
    match ScenarioStep.from_dict d with
    | .error e =>
      .error ("Scenario '" ++ name ++ "', etape " ++ toString i ++ ": " ++ e)
    | .ok s =>
      match parseSteps name (i + 1) rest with
      | .error e => .error e
      | .ok ss => .ok (s :: ss)

/-- Scenario.from_dict (models.py lines 77-95). -/
def Scenario.from_dict (name : String) (data : RawScenarioData) :
    Except String Scenario :=
  match parseSteps name 1 (data.steps.getD []) with
  | .error e => .error e
  | .ok steps => Scenario.mkChecked name (data.description.getD "") steps

/-- The error strings collected by the loop of validate_scenarios
(models.py lines 113-117), in iteration order. -/
def scenarioErrors (data : Reg) : List String :=
  data.filterMap fun nd =>
    match Scenario.from_dict nd.1 nd.2 with
    | .error e => some e
    | .ok _ => none

/-- The successfully parsed scenarios collected by the same loop, in
iteration order. -/
def scenarioOks (data : Reg) : List (String × Scenario) :=
  data.filterMap fun nd =>
    match Scenario.from_dict nd.1 nd.2 with
    | .error _ => none
    | .ok s => some (nd.1, s)

/-- validate_scenarios (models.py lines 98-125): every scenario is
parsed; errors are collected and, if any, raised together as one
aggregate ValidationError. -/
def validate_scenarios (data : Reg) : Except String (List (String × Scenario)) :=
  let errors := scenarioErrors data
  if errors = [] then
    .ok (scenarioOks data)
  else
    .error (toString errors.length ++ " erreur(s) de validation:\n" ++
      joinWith "\n" (errors.map fun e => "  - " ++ e))

/-- Sanity check: the sorted literal is a permutation of VALID_ACTIONS
and is strictly increasing. -/
theorem sortedValidActions_perm :
    List.Perm sortedValidActions VALID_ACTIONS ∧
      sortedValidActions.Pairwise (fun a b => a.data < b.data) := by
  constructor
  · decide
  · decide

/-! ## src/apple_tv/scheduler.py -/

/-- Raw time sub-dictionary of a schedule entry. -/
structure RawTime where
  hour : Option Int := none
  minute : Option Int := none
deriving DecidableEq, Repr

/-- Raw schedule-entry dictionary, as read from schedule.json. -/
structure RawSchedule where
  scenario : Option String := none
  device : Option String := none
  time : Option RawTime := none
  weekdays : Option (List Int) := none
  enabled : Option Bool := none
deriving DecidableEq, Repr

/-- ScheduleEntry dataclass of scheduler.py lines 23-32. -/
structure ScheduleEntry where
  scenario : String
  device : String
  hour : Int
  minute : Int
  weekdays : Option (List Int) := none
  enabled : Bool := true
deriving DecidableEq, Repr

/-- ScheduleEntry.__post_init__ (scheduler.py lines 34-43): range checks
on hour, minute and the weekday values; raising ValueError is embedded
as Except.error. -/
def ScheduleEntry.mkChecked (scenario device : String) (hour minute : Int)
    (weekdays : Option (List Int)) (enabled : Bool) :
    Except String ScheduleEntry :=
  if ¬(0 ≤ hour ∧ hour ≤ 23) then
    .error ("hour doit etre entre 0-23, recu: " ++ toString hour)
  else if ¬(0 ≤ minute ∧ minute ≤ 59) then
    .error ("minute doit etre entre 0-59, recu: " ++ toString minute)
  else
    match weekdays with
    | some wds =>
      let invalid := wds.filter fun d => ¬(0 ≤ d ∧ d ≤ 6)
      if invalid = [] then
        .ok { scenario := scenario, device := device, hour := hour,
              minute := minute, weekdays := some wds, enabled := enabled }
      else
        .error ("weekdays doit etre entre 0-6, invalides: " ++ toString invalid)
    | none =>
      .ok { scenario := scenario, device := device, hour := hour,
            minute := minute, weekdays := none, enabled := enabled }

/-- ScheduleEntry.from_dict (scheduler.py lines 45-56): every key is
optional; scenario and device default to the empty string, hour and
minute default to 0 (also when the whole time object is absent),
enabled defaults to True. -/
def ScheduleEntry.from_dict (d : RawSchedule) : Except String ScheduleEntry :=
  let timeObj := d.time.getD {}
  ScheduleEntry.mkChecked (d.scenario.getD "") (d.device.getD "")
    (timeObj.hour.getD 0) (timeObj.minute.getD 0) d.weekdays
    (d.enabled.getD true)

/-- ScheduleEntry.to_dict (scheduler.py lines 58-68): scenario, device,
time and enabled are always written; the weekdays key is written only
when weekdays is not None. -/
def ScheduleEntry.to_dict (e : ScheduleEntry) : RawSchedule :=
  { scenario := some e.scenario,
    device := some e.device,
    time := some { hour := some e.hour, minute := some e.minute },
    weekdays := e.weekdays,
    enabled := some e.enabled }

/-- A point in time as the scheduler observes it: hour, minute and the
weekday in the numbering of the Python datetime library, where
Monday = 0 and Sunday = 6. -/
structure DateTimeM where
  hour : Int
  minute : Int
  pyWeekday : Nat
deriving DecidableEq, Repr

/-- ScheduleEntry.should_run_now (scheduler.py lines 70-80), with the
observed time datetime.now() made an explicit parameter.  The weekday
is converted from the Monday=0 numbering of the time library to the
Sunday=0 numbering used by schedule entries. -/
def ScheduleEntry.should_run_now (e : ScheduleEntry) (now : DateTimeM) : Bool :=
  match e.weekdays with
  | some wds =>
    let currentDay : Int := ((now.pyWeekday + 1) % 7 : Nat)
    if currentDay ∉ wds then
      false
    else
      now.hour = e.hour ∧ now.minute = e.minute
  | none => now.hour = e.hour ∧ now.minute = e.minute

/-- load_schedules (scheduler.py lines 95-98): maps
ScheduleEntry.from_dict over the raw entry list; nothing else is
checked (validate_schedule_entry is not called on this path). -/
def load_schedules (entries : List RawSchedule) :
    Except String (List ScheduleEntry) :=
  entries.mapM ScheduleEntry.from_dict

/-- validate_schedule_entry (models.py lines 128-174): the standalone
schedule validator, requiring non-empty scenario and device and a time
object with an hour.  The isinstance checks of the source (time must be
a dict, hour and minute and the weekday values must be ints) hold by
construction in this typed embedding. -/
def validate_schedule_entry (data : RawSchedule) (index : Nat) :
    Except String Unit :=
  let pfx := "Planification [" ++ toString index ++ "]"
  if falsyS data.scenario then
    .error (pfx ++ ": 'scenario' requis")
  else if falsyS data.device then
    .error (pfx ++ ": 'device' requis")
  else
    let timeObj := data.time.getD {}
    match timeObj.hour with
    | none => .error (pfx ++ ": 'time.hour' requis")
    | some hour =>
      if ¬(0 ≤ hour ∧ hour ≤ 23) then
        .error (pfx ++ ": 'hour' doit etre entre 0-23")
      else
        let minute := timeObj.minute.getD 0
        if ¬(0 ≤ minute ∧ minute ≤ 59) then
          .error (pfx ++ ": 'minute' doit etre entre 0-59")
        else
          match data.weekdays with
          | none => .ok ()
          | some wds =>
            if wds.all (fun d => 0 ≤ d ∧ d ≤ 6) then
              .ok ()
            else
              .error (pfx ++ ": 'weekdays' doit contenir des entiers 0-6")

/-! ## src/apple_tv/scenarios.py - the execution engine

The device collaborator (pyatv) is modelled as a trace of effects: each
awaited primitive call and each sleep is recorded.  execute_step then
returns the boolean the source returns together with the trace of
device calls and sleeps it performed, in order. -/

/-- One observable effect of step execution: a remote-control press, a
playback-transport call, a swipe, an app launch, or a sleep. -/
inductive Eff where
  | nav (button : String)
  | play (button : String)
  | swipe (startX startY endX endY duration : Nat)
  | launch (app : String)
  | sleep (seconds : ℚ)
deriving DecidableEq, Repr

/-- MAX_SCENARIO_DEPTH (scenarios.py line 66). -/
def MAX_SCENARIO_DEPTH : Nat := 10

/-- The default of step.get("delay", 0.5) in execute_step (scenarios.py
line 79), written with mkRat so that it evaluates in the kernel. -/
def EXEC_DEFAULT_DELAY : ℚ := mkRat 1 2

/-- The 0.15 second pause between the two presses of the home_double
branch (scenarios.py line 166). -/
def HOME_DOUBLE_SLEEP : ℚ := mkRat 3 20

/-- Keys of the nav_actions dispatch dict (scenarios.py lines 85-93). -/
def NAV_ACTIONS : List String :=
  ["up", "down", "left", "right", "select", "menu", "home"]

/-- Keys of the play_actions dispatch dict (scenarios.py lines 95-99). -/
def PLAY_ACTIONS : List String :=
  ["play", "pause", "play_pause"]

/-- The swipe_gestures dict (scenarios.py lines 103-108):
(start_x, start_y, end_x, end_y, duration_ms) per gesture. -/
def SWIPE_GESTURES : List (String × (Nat × Nat × Nat × Nat × Nat)) :=
  [("swipe_up", (500, 700, 500, 300, 300)),
   ("swipe_down", (500, 300, 500, 700, 300)),
   ("swipe_left", (700, 500, 300, 500, 300)),
   ("swipe_right", (300, 500, 700, 500, 300))]

/-- The for-i-in-range(repeat) loop of execute_step (scenarios.py line
128): the loop body is deterministic, so it is evaluated once and its
result replayed; an iteration returning False exits the loop early
with the effects already performed; with zero iterations the loop body
never runs and execute_step falls through to return True. -/
def runRepeat : Nat → Bool × List Eff → Bool × List Eff
  | 0, _ => (true, [])
  | n + 1, (b, effs) =>
    if b then
      let r := runRepeat n (b, effs)
      (r.1, effs ++ r.2)
    else
      (false, effs)

/-- Sequencing of steps with fail-fast early return, as in the sub-step
loop of the scenario branch (scenarios.py lines 192-194) and the step
loop of run_scenario (lines 228-231): the first failing step stops the
sequence. -/
def execStepsWith (f : RawStep → Bool × List Eff) :
    List RawStep → Bool × List Eff
  | [] => (true, [])
  | s :: rest =>
    let r := f s
    if r.1 then
      let r' := execStepsWith f rest
      (r'.1, r.2 ++ r'.2)
    else
      (false, r.2)

/-- The prologue of execute_step (scenarios.py lines 77-83 and 128): a
falsy action fails at once; otherwise the loop runs repeat times
(step.get("repeat", 1); a non-positive repeat yields zero iterations)
over the branch body. -/
def runStep (body : String → RawStep → Bool × List Eff) (step : RawStep) :
    Bool × List Eff :=
  match step.action with
  | none => (false, [])
  | some a =>
    if a = "" then (false, [])
    else runRepeat (step.repeatN.getD 1).toNat (body a step)

/-- The non-recursive branch bodies of the for-loop of execute_step
(scenarios.py lines 131-170 and 198-200): launch, wait, navigation,
playback, swipe, home_double, and the unknown-action fallthrough.  The
scenario branch is handled by stepBodyF below. -/
def stepBodySimple (a : String) (step : RawStep) : Bool × List Eff :=
  let delay := step.delay.getD EXEC_DEFAULT_DELAY
  let delayEff : List Eff := if 0 < delay then [.sleep delay] else []
  if a = "launch" then
    match step.app with
    | none => (false, [])
    | some app => if app = "" then (false, []) else (true, [.launch app])
  else if a = "wait" then
    (true, [.sleep (step.seconds.getD 1)])
  else if a ∈ NAV_ACTIONS then
    (true, .nav a :: delayEff)
  else if a ∈ PLAY_ACTIONS then
    (true, .play a :: delayEff)
  else if h : (SWIPE_GESTURES.lookup a).isSome then
    let c := (SWIPE_GESTURES.lookup a).get h
    (true, .swipe c.1 c.2.1 c.2.2.1 c.2.2.2.1 c.2.2.2.2 :: delayEff)
  else if a = "home_double" then
    (true, [.nav "home", .sleep HOME_DOUBLE_SLEEP, .nav "home"] ++ delayEff)
  else
    (false, [])

/-- The per-iteration branch body of execute_step (scenarios.py lines
131-200), with fuel bounding the nesting of sub-scenario calls.  The
source tests the scenario branch after the others; it is hoisted first
here, which is equivalent because the string "scenario" matches none of
the other branch guards.  The depth guard of the source (line 177)
stops recursion at MAX_SCENARIO_DEPTH, so from the fuel used by
execute_step below the fuel-exhaustion branch is unreachable (see
stepBodyF_fuel_stable). -/
def stepBodyF : Nat → String → RawStep → Reg → Nat → Bool × List Eff
  | fuel, a, step, reg, depth =>
    if a = "scenario" then
      match step.name with
      | none => (false, [])
      | some nm =>
        if nm = "" then (false, [])
        else if MAX_SCENARIO_DEPTH ≤ depth then (false, [])
        else
          match List.lookup nm reg with
          | none => (false, [])
          | some sc =>
            match fuel with
            | 0 => (false, [])
            | fuel' + 1 =>
              execStepsWith
                (runStep fun a' s => stepBodyF fuel' a' s reg (depth + 1))
                (sc.steps.getD [])
    else
      stepBodySimple a step

/-- execute_step at a given fuel. -/
def execute_stepF (fuel : Nat) (step : RawStep) (reg : Reg) (depth : Nat) :
    Bool × List Eff :=
  runStep (fun a s => stepBodyF fuel a s reg depth) step

/-- execute_step (scenarios.py lines 69-202).  The fuel
MAX_SCENARIO_DEPTH + 1 strictly exceeds the number of nested
sub-scenario calls the depth guard permits from any starting depth, so
the result does not depend on it (stepBodyF_fuel_stable below). -/
def execute_step (step : RawStep) (reg : Reg) (depth : Nat) : Bool × List Eff :=
  execute_stepF (MAX_SCENARIO_DEPTH + 1) step reg depth

/-- Sub-scenario step sequencing at a given depth, phrased with
execute_step. -/
def execute_steps (steps : List RawStep) (reg : Reg) (depth : Nat) :
    Bool × List Eff :=
  execStepsWith (fun s => execute_step s reg depth) steps

/-- The step loop of run_scenario (scenarios.py lines 228-231):
enumerate(steps, 1), stop at the first failing step and report its
1-based index. -/
def runStepsFrom : List RawStep → Reg → Nat → Bool × Option Nat × List Eff
  | [], _, _ => (true, none, [])
  | s :: rest, reg, i =>
    let r := execute_step s reg 0
    if r.1 then
      let r' := runStepsFrom rest reg (i + 1)
      (r'.1, r'.2.1, r.2 ++ r'.2.2)
    else
      (false, some i, r.2)

/-- run_scenario (scenarios.py lines 205-234).  The source first calls
load_scenarios(), which validates the loaded scenario set with
validate_scenarios; the ValidationError is caught (lines 206-211) and
turned into a False return before any step runs.  The file read itself
is modelled by the reg parameter.  An unknown name also fails, with no
step-index report.  Otherwise the steps run in order at depth 0 and
the first failure aborts with its 1-based index. -/
def run_scenario (reg : Reg) (name : String) : Bool × Option Nat × List Eff :=
  match validate_scenarios reg with
  | .error _ => (false, none, [])
  | .ok _ =>
    match List.lookup name reg with
    | none => (false, none, [])
    | some sc => runStepsFrom (sc.steps.getD []) reg 1


/-! ## Helper lemmas -/

/-- Every string joined by joinWith appears inside the joined string. -/
theorem joinWith_mem_infix (sep : String) :
    ∀ (l : List String), ∀ s ∈ l, s.data <:+: (joinWith sep l).data := by
  intro l
  induction l with
  | nil => simp
  | cons x xs ih =>
    intro s hs
    rw [List.mem_cons] at hs
    cases xs with
    | nil =>
      have hx : s = x := by simpa using hs
      subst hx
      exact s.data.infix_refl
    | cons y ys =>
      have hjw : joinWith sep (x :: y :: ys) = x ++ sep ++ joinWith sep (y :: ys) := rfl
      rw [hjw, String.data_append, String.data_append]
      rcases hs with rfl | hs
      · exact ((List.prefix_append s.data sep.data).isInfix).trans
          (List.prefix_append _ _).isInfix
      · exact (ih s hs).trans (List.suffix_append _ _).isInfix

/-- A repeated successful body yields success with the body effects
replayed n times. -/
theorem runRepeat_true (effs : List Eff) :
    ∀ n : Nat, runRepeat n (true, effs) = (true, (List.replicate n effs).flatten) := by
  intro n
  induction n with
  | zero => rfl
  | succ k ih => simp [runRepeat, ih, List.replicate_succ]

/-- A failing body stops the repeat loop at its first iteration. -/
theorem runRepeat_false (effs : List Eff) (n : Nat) (h : 1 ≤ n) :
    runRepeat n (false, effs) = (false, effs) := by
  cases n with
  | zero => cases h
  | succ k => simp [runRepeat]

/-- Pointwise equal step executors run step lists identically. -/
theorem execStepsWith_congr {f g : RawStep → Bool × List Eff}
    (h : ∀ s, f s = g s) : ∀ l, execStepsWith f l = execStepsWith g l := by
  intro l
  induction l with
  | nil => rfl
  | cons s rest ih => simp [execStepsWith, h s, ih]

/-- Pointwise equal branch bodies run a step identically. -/
theorem runStep_congr {b₁ b₂ : String → RawStep → Bool × List Eff}
    (h : ∀ a s, b₁ a s = b₂ a s) (step : RawStep) :
    runStep b₁ step = runStep b₂ step := by
  unfold runStep
  cases step.action with
  | none => rfl
  | some a => simp [h a step]

/-- The fuel of stepBodyF is irrelevant as long as it exceeds the number
of nested sub-scenario levels the depth guard still permits: the guard
of scenarios.py line 177 cuts recursion before the fuel can run out. -/
theorem stepBodyF_fuel_stable :
    ∀ f₁ : Nat, ∀ f₂ a step reg depth,
      MAX_SCENARIO_DEPTH - depth < f₁ → MAX_SCENARIO_DEPTH - depth < f₂ →
      stepBodyF f₁ a step reg depth = stepBodyF f₂ a step reg depth := by
  intro f₁
  induction f₁ using Nat.strong_induction_on with
  | _ f₁ ih =>
    intro f₂ a step reg depth h₁ h₂
    unfold stepBodyF
    by_cases hSc : a = "scenario"
    · rw [if_pos hSc, if_pos hSc]
      cases step.name with
      | none => rfl
      | some nm =>
        dsimp only
        by_cases hnm : nm = ""
        · rw [if_pos hnm, if_pos hnm]
        · rw [if_neg hnm, if_neg hnm]
          by_cases hd : MAX_SCENARIO_DEPTH ≤ depth
          · rw [if_pos hd, if_pos hd]
          · rw [if_neg hd, if_neg hd]
            cases List.lookup nm reg with
            | none => rfl
            | some sc =>
              obtain ⟨k₁, rfl⟩ : ∃ k, f₁ = k + 1 := by
                cases f₁ with
                | zero => omega
                | succ k => exact ⟨k, rfl⟩
              obtain ⟨k₂, rfl⟩ : ∃ k, f₂ = k + 1 := by
                cases f₂ with
                | zero => omega
                | succ k => exact ⟨k, rfl⟩
              exact execStepsWith_congr
                (fun s => runStep_congr
                  (fun a' s' => ih k₁ (Nat.lt_succ_self k₁) k₂ a' s' reg
                    (depth + 1) (by omega) (by omega)) s)
                (sc.steps.getD [])
    · rw [if_neg hSc, if_neg hSc]

/-- One fuel unit below the canonical fuel still computes execute_step
one depth level further down. -/
theorem execute_stepF_sub (s : RawStep) (reg : Reg) (depth : Nat) :
    execute_stepF MAX_SCENARIO_DEPTH s reg (depth + 1) =
      execute_step s reg (depth + 1) := by
  unfold execute_step execute_stepF
  apply runStep_congr
  intro a s'
  exact stepBodyF_fuel_stable MAX_SCENARIO_DEPTH (MAX_SCENARIO_DEPTH + 1)
    a s' reg (depth + 1) (by unfold MAX_SCENARIO_DEPTH; omega)
    (by unfold MAX_SCENARIO_DEPTH; omega)

/-- A non-scenario action takes its branch from stepBodySimple at any
fuel. -/
theorem stepBodyF_not_scenario (fuel : Nat) (a : String) (step : RawStep)
    (reg : Reg) (depth : Nat) (h : a ≠ "scenario") :
    stepBodyF fuel a step reg depth = stepBodySimple a step := by
  unfold stepBodyF
  rw [if_neg h]

/-- execute_step on a non-scenario action: the branch body repeated
repeat times. -/
theorem execute_step_simple (step : RawStep) (reg : Reg) (depth : Nat)
    (a : String) (ha : step.action = some a) (ha' : a ≠ "")
    (hsc : a ≠ "scenario") :
    execute_step step reg depth =
      runRepeat (step.repeatN.getD 1).toNat (stepBodySimple a step) := by
  simp only [execute_step, execute_stepF, runStep, ha]
  rw [if_neg ha', stepBodyF_not_scenario _ _ _ _ _ hsc]

/-- execute_step on a scenario step whose depth guard admits recursion:
the sub-scenario steps run at depth + 1, repeated repeat times. -/
theorem execute_step_scenario (step : RawStep) (reg : Reg) (depth : Nat)
    (nm : String) (sc : RawScenarioData)
    (ha : step.action = some "scenario") (hn : step.name = some nm)
    (hnm : nm ≠ "") (hd : depth < MAX_SCENARIO_DEPTH)
    (hlook : List.lookup nm reg = some sc) :
    execute_step step reg depth =
      runRepeat (step.repeatN.getD 1).toNat
        (execute_steps (sc.steps.getD []) reg (depth + 1)) := by
  simp only [execute_step, execute_stepF, runStep, ha]
  rw [if_neg (by decide : ¬("scenario" : String) = "")]
  congr 1
  unfold stepBodyF
  rw [if_pos rfl, hn]
  dsimp only
  rw [if_neg hnm, if_neg (by omega : ¬MAX_SCENARIO_DEPTH ≤ depth), hlook]
  show execStepsWith
      (runStep fun a' s => stepBodyF MAX_SCENARIO_DEPTH a' s reg (depth + 1))
      (sc.steps.getD []) = _
  unfold execute_steps
  apply execStepsWith_congr
  intro s
  exact execute_stepF_sub s reg depth

/-- execute_step on a scenario step at or beyond the depth limit: the
body fails without consulting the registry. -/
theorem execute_step_scenario_depth (step : RawStep) (reg : Reg)
    (depth : Nat) (nm : String)
    (ha : step.action = some "scenario") (hn : step.name = some nm)
    (hnm : nm ≠ "") (hd : MAX_SCENARIO_DEPTH ≤ depth) :
    execute_step step reg depth =
      runRepeat (step.repeatN.getD 1).toNat (false, []) := by
  simp only [execute_step, execute_stepF, runStep, ha]
  rw [if_neg (by decide : ¬("scenario" : String) = "")]
  congr 1
  unfold stepBodyF
  rw [if_pos rfl, hn]
  dsimp only
  rw [if_neg hnm, if_pos hd]

/-- Decidable equality for Except results, so that concrete validation
outcomes can be settled by decide. -/
instance exceptDecEq {e a : Type} [DecidableEq e] [DecidableEq a] :
    DecidableEq (Except e a) := fun x y =>
  match x, y with
  | .error v, .error w =>
    if h : v = w then .isTrue (by rw [h])
    else .isFalse (by intro hc; cases hc; exact h rfl)
  | .error _, .ok _ => .isFalse (by intro hc; cases hc)
  | .ok _, .error _ => .isFalse (by intro hc; cases hc)
  | .ok v, .ok w =>
    if h : v = w then .isTrue (by rw [h])
    else .isFalse (by intro hc; cases hc; exact h rfl)

/-! ## Concrete fixtures used by the claim theorems -/

/-- A bare select step. -/
def selectStep : RawStep := { action := some "select" }

/-- A scenario-call step targeting the named sub-scenario. -/
def scnStep (nm : String) : RawStep := { action := some "scenario", name := some nm }

/-- A one-scenario registry whose scenario "sub" is a single select. -/
def subReg : Reg := [("sub", { steps := some [selectStep] })]

/-- A linear chain of k scenarios: scenario i calls scenario i+1, and the
last one holds the single leaf select step. -/
def chainReg (k : Nat) : Reg :=
  (List.range k).map fun i =>
    (toString i,
      { steps := some [if i + 1 < k then scnStep (toString (i + 1)) else selectStep] })

/-- A self-referential scenario registry: "loop" calls "loop". -/
def loopReg : Reg := [("loop", { steps := some [scnStep "loop"] })]

/-! ## Claims -/

/-- C1: the claim says the validator accepts the full action vocabulary
of the spec (swipe gestures, double-home, stop/next/previous, and
scenario with its name parameter).  The code rejects all of them:
VALID_ACTIONS of models.py contains none of these strings, so
ScenarioStep construction raises ValidationError for a scenario step
(as well as for every swipe step), even though the execution engine of
scenarios.py accepts swipe_up, home_double and scenario steps, and the
repository's own tests construct ScenarioStep(action="scenario",
name=...) and import the DEFAULT_ACTION_DELAY constant that models.py
does not define. -/
theorem c1_vocabulary_gap :
    ScenarioStep.from_dict { action := some "scenario", name := some "sub" } =
      .error ("Action 'scenario' invalide. Actions valides: down, home, " ++
        "launch, left, menu, pause, play, play_pause, right, select, up, wait") ∧
    "scenario" ∉ VALID_ACTIONS ∧
    "swipe_up" ∉ VALID_ACTIONS ∧ "swipe_down" ∉ VALID_ACTIONS ∧
    "swipe_left" ∉ VALID_ACTIONS ∧ "swipe_right" ∉ VALID_ACTIONS ∧
    "home_double" ∉ VALID_ACTIONS ∧
    "stop" ∉ VALID_ACTIONS ∧ "next" ∉ VALID_ACTIONS ∧
    "previous" ∉ VALID_ACTIONS ∧
    (execute_step { action := some "swipe_up" } [] 0).1 = true ∧
    (execute_step { action := some "home_double" } [] 0).1 = true ∧
    (execute_step (scnStep "sub") subReg 0).1 = true := by
  decide

/-- C7: the claim says a negative delay is rejected at construction and
the step model carries a delay field defaulting to 0.5.  The
ScenarioStep dataclass of models.py has no delay field at all:
from_dict silently drops the delay key, so a step dict with delay -0.5
is accepted, identically to one with no delay and to one with delay 0.
The repository's own tests assert the claimed behaviour
(test_default_delay, test_negative_delay_raises, test_zero_delay_is_valid
in tests/test_models.py), so the code contradicts its tests. -/
theorem c7_delay_ignored :
    ScenarioStep.from_dict { action := some "select", delay := some (mkRat (-1) 2) } =
      .ok { action := "select" } ∧
    ScenarioStep.from_dict { action := some "select", delay := some 0 } =
      .ok { action := "select" } ∧
    ScenarioStep.from_dict { action := some "select" } =
      .ok { action := "select" } := by
  decide

/-- C9: a wait step without a seconds key does not fail in execute_step:
it sleeps the default 1 second and returns true, while a launch step
without an app key defensively returns false. -/
theorem c9_wait_default (reg : Reg) (depth : Nat) (app nm : Option String)
    (dl : Option ℚ) (sec : Option ℚ) :
    execute_step { action := some "wait", app := app, seconds := none,
                   name := nm, repeatN := none, delay := dl } reg depth =
      (true, [Eff.sleep 1]) ∧
    execute_step { action := some "launch", app := none, seconds := sec,
                   name := nm, repeatN := none, delay := dl } reg depth =
      (false, []) := by
  constructor
  · rw [execute_step_simple _ _ _ "wait" rfl (by decide) (by decide)]
    simp [stepBodySimple, NAV_ACTIONS, PLAY_ACTIONS, SWIPE_GESTURES,
      runRepeat, List.lookup]
  · rw [execute_step_simple _ _ _ "launch" rfl (by decide) (by decide)]
    simp [stepBodySimple, runRepeat]

/-- The weekday-restricted example entry of the spec: scenario x on
device Salon at 20:00, weekdays [1,2,3,4,5] (Monday through Friday in
the Sunday=0 numbering), enabled. -/
def fridayEntry : ScheduleEntry :=
  { scenario := "x", device := "Salon", hour := 20, minute := 0,
    weekdays := some [1, 2, 3, 4, 5], enabled := true }

/-- A Saturday at 20:00 (Python weekday 5 is Saturday). -/
def satNow : DateTimeM := { hour := 20, minute := 0, pyWeekday := 5 }

/-- A Tuesday at 20:00 (Python weekday 1 is Tuesday). -/
def tueNow : DateTimeM := { hour := 20, minute := 0, pyWeekday := 1 }

/-- C4: should_run_now is true exactly when hour and minute match and
the weekday filter (absent, or containing the observed weekday
converted from the Monday=0 numbering to Sunday=0) passes; in
particular the weekday-Friday example is false on Saturday 20:00 and
true on Tuesday 20:00. -/
theorem c4_should_run_now :
    (∀ (e : ScheduleEntry) (now : DateTimeM),
      e.should_run_now now = true ↔
        (now.hour = e.hour ∧ now.minute = e.minute ∧
          (e.weekdays = none ∨ ∃ wds, e.weekdays = some wds ∧
            (((now.pyWeekday + 1) % 7 : Nat) : Int) ∈ wds))) ∧
    fridayEntry.should_run_now satNow = false ∧
    fridayEntry.should_run_now tueNow = true := by
  refine ⟨?_, by decide, by decide⟩
  intro e now
  cases hw : e.weekdays with
  | none => simp [ScheduleEntry.should_run_now, hw]
  | some wds =>
    by_cases hm : (((now.pyWeekday + 1) % 7 : Nat) : Int) ∈ wds
    · simp [ScheduleEntry.should_run_now, hw, hm]
      tauto
    · simp [ScheduleEntry.should_run_now, hw, hm]
      tauto

/-- Flattening n copies of a singleton gives n copies of the element. -/
theorem flatten_replicate_singleton {α : Type} (x : α) :
    ∀ n : Nat, (List.replicate n [x]).flatten = List.replicate n x := by
  intro n
  induction n with
  | zero => rfl
  | succ k ih => simp [List.replicate_succ, ih]

/-- C2 counterexample: a wait step with repeat 2 sleeps twice, a launch
step with repeat 2 launches the app twice, and a scenario step with
repeat 2 runs the sub-scenario twice, all unlike their repeat-1
behaviour. -/
theorem c2_repeat_counterexample :
    execute_step { action := some "wait", seconds := some 2, repeatN := some 2 } [] 0 =
      (true, [Eff.sleep 2, Eff.sleep 2]) ∧
    execute_step { action := some "wait", seconds := some 2, repeatN := some 1 } [] 0 =
      (true, [Eff.sleep 2]) ∧
    execute_step { action := some "launch", app := some "netflix", repeatN := some 2 } [] 0 =
      (true, [Eff.launch "netflix", Eff.launch "netflix"]) ∧
    execute_step { action := some "scenario", name := some "sub", repeatN := some 2 } subReg 0 =
      (true, [Eff.nav "select", Eff.sleep EXEC_DEFAULT_DELAY,
              Eff.nav "select", Eff.sleep EXEC_DEFAULT_DELAY]) ∧
    ([Eff.sleep 2, Eff.sleep 2] ≠ [Eff.sleep 2]) := by
  decide

/-- C2 amended: for repeat greater than or equal to 2, every branch of
execute_step runs its body repeat times — the launch, wait and scenario
branches included (the app is launched repeat times, the wait sleeps
repeat times, the sub-scenario runs repeat times), not just the
navigation and playback branches. -/
theorem c2_repeat_all_branches (r : Int) (hr : 2 ≤ r) (s : ℚ)
    (app nm : String) (reg : Reg) (depth : Nat) (sc : RawScenarioData)
    (effs : List Eff) (happ : app ≠ "") (hnm : nm ≠ "")
    (hd : depth < MAX_SCENARIO_DEPTH)
    (hlook : List.lookup nm reg = some sc)
    (hsub : execute_steps (sc.steps.getD []) reg (depth + 1) = (true, effs)) :
    execute_step { action := some "wait", seconds := some s, repeatN := some r } reg depth =
      (true, List.replicate r.toNat (Eff.sleep s)) ∧
    execute_step { action := some "launch", app := some app, repeatN := some r } reg depth =
      (true, List.replicate r.toNat (Eff.launch app)) ∧
    execute_step { action := some "scenario", name := some nm, repeatN := some r } reg depth =
      (true, (List.replicate r.toNat effs).flatten) := by
  refine ⟨?_, ?_, ?_⟩
  · rw [execute_step_simple _ _ _ "wait" rfl (by decide) (by decide)]
    have hbody : stepBodySimple "wait"
        { action := some "wait", seconds := some s, repeatN := some r } =
        (true, [Eff.sleep s]) := by
      simp [stepBodySimple, NAV_ACTIONS, PLAY_ACTIONS, SWIPE_GESTURES, List.lookup]
    rw [hbody, runRepeat_true, flatten_replicate_singleton]
    rfl
  · rw [execute_step_simple _ _ _ "launch" rfl (by decide) (by decide)]
    have hbody : stepBodySimple "launch"
        { action := some "launch", app := some app, repeatN := some r } =
        (true, [Eff.launch app]) := by
      simp [stepBodySimple, happ]
    rw [hbody, runRepeat_true, flatten_replicate_singleton]
    rfl
  · rw [execute_step_scenario _ _ _ nm sc rfl rfl hnm hd hlook]
    rw [hsub, runRepeat_true]
    rfl

/-- C2 amended witness at repeat 2. -/
theorem c2_repeat_all_branches_witness :
    ((2 : Int) ≤ 2 ∧ "netflix" ≠ "" ∧ "sub" ≠ "" ∧ 0 < MAX_SCENARIO_DEPTH ∧
      List.lookup "sub" subReg = some { steps := some [selectStep] } ∧
      execute_steps [selectStep] subReg 1 =
        (true, [Eff.nav "select", Eff.sleep EXEC_DEFAULT_DELAY])) ∧
    execute_step { action := some "wait", seconds := some 3, repeatN := some 2 } subReg 0 =
      (true, List.replicate (2 : Int).toNat (Eff.sleep 3)) :=
  ⟨⟨by decide, by decide, by decide, by decide, by decide, by decide⟩,
    (c2_repeat_all_branches 2 (by decide) 3 "netflix" "sub" subReg 0
      { steps := some [selectStep] }
      [Eff.nav "select", Eff.sleep EXEC_DEFAULT_DELAY]
      (by decide) (by decide) (by decide) (by decide) (by decide)).1⟩

/-- C3: a chain of scenario steps nested exactly 10 levels deep runs to
success when the leaf succeeds; a chain nested 11 levels deep fails
with the depth-exceeded error at the 11th nested call with no effects
performed; at depth at or past the limit a scenario step fails
immediately for every registry, so the recursion never goes deeper;
and on a cyclic self-referential registry execute_step still evaluates
(to a depth-limited failure) instead of diverging. -/
theorem c3_depth_bound (step : RawStep) (reg : Reg) (depth : Nat)
    (nm : String) (ha : step.action = some "scenario")
    (hn : step.name = some nm) (hnm : nm ≠ "")
    (hd : MAX_SCENARIO_DEPTH ≤ depth)
    (hr : 1 ≤ (step.repeatN.getD 1).toNat) :
    execute_step (scnStep "0") (chainReg 10) 0 =
      (true, [Eff.nav "select", Eff.sleep EXEC_DEFAULT_DELAY]) ∧
    execute_step (scnStep "0") (chainReg 11) 0 = (false, []) ∧
    execute_step step reg depth = (false, []) ∧
    execute_step (scnStep "loop") loopReg 0 = (false, []) := by
  refine ⟨by decide, by decide, ?_, by decide⟩
  rw [execute_step_scenario_depth step reg depth nm ha hn hnm hd]
  exact runRepeat_false [] _ hr

/-- C3 witness: the depth-guard conjunct applied at depth 10 with an
empty registry. -/
theorem c3_depth_bound_witness :
    ((scnStep "x").action = some "scenario" ∧ (scnStep "x").name = some "x" ∧
      "x" ≠ "" ∧ MAX_SCENARIO_DEPTH ≤ 10 ∧
      1 ≤ (((scnStep "x").repeatN).getD 1).toNat) ∧
    execute_step (scnStep "x") [] 10 = (false, []) :=
  ⟨⟨rfl, rfl, by decide, by decide, by decide⟩,
    (c3_depth_bound (scnStep "x") [] 10 "x" rfl rfl (by decide) (by decide)
      (by decide)).2.2.1⟩

/-- The step loop of run_scenario on a list whose steps before the
failing one all succeed: it stops at the failing step, reports its
1-based index, and performs no effect of any later step. -/
theorem runStepsFrom_fail (reg : Reg) (sf : RawStep) (post : List RawStep)
    (hf : (execute_step sf reg 0).1 = false) :
    ∀ (pre : List RawStep) (i : Nat),
      (∀ s ∈ pre, (execute_step s reg 0).1 = true) →
      runStepsFrom (pre ++ sf :: post) reg i =
        (false, some (i + pre.length),
          (pre.map fun s => (execute_step s reg 0).2).flatten ++
            (execute_step sf reg 0).2) := by
  intro pre
  induction pre with
  | nil =>
    intro i _
    simp only [List.nil_append, runStepsFrom, hf, List.map_nil,
      List.flatten_nil, List.length_nil, Nat.add_zero, List.nil_append]
    rw [if_neg (by simp [hf])]
  | cons x xs ih =>
    intro i hpre
    have hx : (execute_step x reg 0).1 = true := hpre x (List.mem_cons_self x xs)
    have hxs : ∀ s ∈ xs, (execute_step s reg 0).1 = true :=
      fun s hs => hpre s (List.mem_cons_of_mem x hs)
    show runStepsFrom (x :: (xs ++ sf :: post)) reg i = _
    simp only [runStepsFrom]
    rw [if_pos hx, ih (i + 1) hxs]
    simp only [List.map_cons, List.flatten_cons, List.length_cons]
    refine congrArg₂ Prod.mk rfl (congrArg₂ Prod.mk ?_ ?_)
    · congr 1
      omega
    · rw [List.append_assoc]

/-- The failing middle step of the C5 example scenario: an unknown
action. -/
def badStep : RawStep := { action := some "xxx" }

/-- The C5 example registry: one scenario of five steps whose third step
fails. -/
def c5Reg : Reg :=
  [("main", { steps := some [selectStep, selectStep, badStep, selectStep, selectStep] })]

/-- C5 counterexample: the claim as stated fails on the code, because
run_scenario validates the loaded scenario set before executing any
step (scenarios.py lines 206-211).  In the five-step scenario whose
step 3 is an unknown action — steps 1 and 2 succeed in execute_step
and step 3 fails, satisfying the claim's hypothesis — run_scenario
rejects the whole set at validation and returns false with no device
call and no step-index report, instead of reporting failure at index 3
after executing steps 1 and 2. -/
theorem c5_fail_fast_counterexample :
    (∀ s ∈ [selectStep, selectStep], (execute_step s c5Reg 0).1 = true) ∧
    (execute_step badStep c5Reg 0).1 = false ∧
    run_scenario c5Reg "main" = (false, none, []) ∧
    ((false, none, []) : Bool × Option Nat × List Eff) ≠
      (false, some 3,
        [Eff.nav "select", Eff.sleep EXEC_DEFAULT_DELAY,
         Eff.nav "select", Eff.sleep EXEC_DEFAULT_DELAY]) := by
  decide

/-- C5 amended: run_scenario returns false with no device call and no
step-index report whenever validation rejects the loaded scenario set
— which it does for every set containing a step that would fail; below
that gate the fail-fast mechanics hold as claimed: the step loop of
run_scenario stops at the first failing step, reports its 1-based
index and performs no effect of any later step, and a failing
sub-scenario body makes every enclosing scenario step fail, with no
retry. -/
theorem c5_fail_fast_amended (reg : Reg) (nm : String)
    (pre : List RawStep) (sf : RawStep) (post : List RawStep)
    (hpre : ∀ s ∈ pre, (execute_step s reg 0).1 = true)
    (hf : (execute_step sf reg 0).1 = false) :
    (scenarioErrors reg ≠ [] → run_scenario reg nm = (false, none, [])) ∧
    runStepsFrom (pre ++ sf :: post) reg 1 =
      (false, some (pre.length + 1),
        (pre.map fun s => (execute_step s reg 0).2).flatten ++
          (execute_step sf reg 0).2) ∧
    (∀ (step : RawStep) (depth : Nat) (nm₂ : String) (sc₂ : RawScenarioData),
      step.action = some "scenario" → step.name = some nm₂ → nm₂ ≠ "" →
      depth < MAX_SCENARIO_DEPTH → List.lookup nm₂ reg = some sc₂ →
      1 ≤ (step.repeatN.getD 1).toNat →
      (execute_steps (sc₂.steps.getD []) reg (depth + 1)).1 = false →
      (execute_step step reg depth).1 = false) := by
  refine ⟨?_, ?_, ?_⟩
  · intro h
    unfold run_scenario
    simp only [validate_scenarios]
    rw [if_neg h]
  · rw [runStepsFrom_fail reg sf post hf pre 1 hpre]
    refine congrArg₂ Prod.mk rfl (congrArg₂ Prod.mk ?_ rfl)
    congr 1
    omega
  · intro step depth nm₂ sc₂ ha hn hnm hd hlook₂ hrep hsub
    rw [execute_step_scenario step reg depth nm₂ sc₂ ha hn hnm hd hlook₂]
    cases hE : execute_steps (sc₂.steps.getD []) reg (depth + 1) with
    | mk b e =>
      rw [hE] at hsub
      simp only at hsub
      subst hsub
      rw [runRepeat_false e _ hrep]

/-- C5 witness: on the five-step scenario whose step 3 fails, the
validation gate makes run_scenario return false with no index and no
effects, while the step loop itself stops at index 3 with only the
effects of steps 1 and 2 performed. -/
theorem c5_fail_fast_amended_witness :
    ((∀ s ∈ [selectStep, selectStep], (execute_step s c5Reg 0).1 = true) ∧
      (execute_step badStep c5Reg 0).1 = false ∧ scenarioErrors c5Reg ≠ []) ∧
    run_scenario c5Reg "main" = (false, none, []) ∧
    runStepsFrom [selectStep, selectStep, badStep, selectStep, selectStep] c5Reg 1 =
      (false, some 3,
        [Eff.nav "select", Eff.sleep EXEC_DEFAULT_DELAY,
         Eff.nav "select", Eff.sleep EXEC_DEFAULT_DELAY]) :=
  ⟨⟨by decide, by decide, by decide⟩,
    (c5_fail_fast_amended c5Reg "main" [selectStep, selectStep] badStep
      [selectStep, selectStep] (by decide) (by decide)).1 (by decide),
    ((c5_fail_fast_amended c5Reg "main" [selectStep, selectStep] badStep
      [selectStep, selectStep] (by decide) (by decide)).2.1).trans (by decide)⟩

/-- C6: validating a scenario set with N invalid scenarios checks every
scenario (each invalid one contributes its error, wrapped by
Scenario.from_dict with the scenario name and 1-based step index) and
raises exactly one aggregate error whose message starts with
"N erreur(s)" and contains each individual message; with no invalid
scenario the parsed mapping is returned. -/
theorem c6_aggregate (data : Reg) :
    (scenarioErrors data = [] → validate_scenarios data = .ok (scenarioOks data)) ∧
    (scenarioErrors data ≠ [] →
      ∃ msg, validate_scenarios data = .error msg ∧
        (toString (scenarioErrors data).length ++ " erreur(s)").data <+: msg.data ∧
        ∀ e ∈ scenarioErrors data, e.data <:+: msg.data) ∧
    Scenario.from_dict "bad2" { steps := some [{ action := some "xxx" }] } =
      .error ("Scenario 'bad2', etape 1: Action 'xxx' invalide. " ++
        "Actions valides: down, home, launch, left, menu, pause, play, " ++
        "play_pause, right, select, up, wait") := by
  refine ⟨?_, ?_, by decide⟩
  · intro h
    simp only [validate_scenarios]
    rw [if_pos h]
  · intro h
    simp only [validate_scenarios]
    rw [if_neg h]
    refine ⟨_, rfl, ?_, ?_⟩
    · refine ⟨(" de validation:\n").data ++
        (joinWith "\n" ((scenarioErrors data).map fun e => "  - " ++ e)).data, ?_⟩
      simp only [String.data_append, List.append_assoc]
      congr 1
    · intro e he
      rw [String.data_append]
      have h1 : e.data <:+: (("  - " ++ e)).data := by
        rw [String.data_append]
        exact (List.suffix_append _ _).isInfix
      have h2 : (("  - " ++ e)).data <:+:
          (joinWith "\n" ((scenarioErrors data).map fun e => "  - " ++ e)).data :=
        joinWith_mem_infix "\n" _ _ (List.mem_map_of_mem _ he)
      exact (h1.trans h2).trans (List.suffix_append _ _).isInfix

/-- C6 witness: the two-scenario set of the repository's own test
(test_multiple_errors_reported): one scenario without steps and one
with an invalid action. -/
def c6Data : Reg :=
  [("bad1", { description := some "No steps", steps := some [] }),
   ("bad2", { description := some "Invalid action", steps := some [{ action := some "xxx" }] })]

/-- C6 witness: on the two-invalid-scenario set, validation reports
"2 erreur(s)" and contains both individual messages. -/
theorem c6_aggregate_witness :
    scenarioErrors c6Data ≠ [] ∧
    (∃ msg, validate_scenarios c6Data = .error msg ∧
      (toString (scenarioErrors c6Data).length ++ " erreur(s)").data <+: msg.data ∧
      ∀ e ∈ scenarioErrors c6Data, e.data <:+: msg.data) :=
  ⟨by decide, (c6_aggregate c6Data).2.1 (by decide)⟩

/-- C8: serializing a valid ScheduleEntry with to_dict and re-parsing
with from_dict returns the same entry, and an absent weekday filter
stays absent in the serialized form (never an empty list). -/
theorem c8_roundtrip (e : ScheduleEntry)
    (hh : 0 ≤ e.hour ∧ e.hour ≤ 23) (hm : 0 ≤ e.minute ∧ e.minute ≤ 59)
    (hw : ∀ wds, e.weekdays = some wds → ∀ d ∈ wds, 0 ≤ d ∧ d ≤ 6) :
    ScheduleEntry.from_dict e.to_dict = .ok e ∧
    (e.to_dict.weekdays = none ↔ e.weekdays = none) := by
  obtain ⟨sc, dev, h, m, w, en⟩ := e
  constructor
  · simp only [ScheduleEntry.from_dict, ScheduleEntry.to_dict,
      ScheduleEntry.mkChecked, Option.getD_some]
    rw [if_neg (not_not_intro hh), if_neg (not_not_intro hm)]
    cases hwd : w with
    | none => rfl
    | some wds =>
      have hfil : wds.filter (fun d => ¬(0 ≤ d ∧ d ≤ 6)) = [] := by
        rw [List.filter_eq_nil_iff]
        intro d hd
        simp only [decide_not, Bool.not_eq_true', decide_eq_false_iff_not,
          Decidable.not_not]
        exact hw wds (by rw [hwd]) d hd
      simp only [hfil]
      rfl
  · cases w <;> simp [ScheduleEntry.to_dict]

/-- C8 witness: the round trip at the weekday-restricted example entry
and at an entry without weekdays. -/
theorem c8_roundtrip_witness :
    ((0 ≤ fridayEntry.hour ∧ fridayEntry.hour ≤ 23) ∧
      (0 ≤ fridayEntry.minute ∧ fridayEntry.minute ≤ 59) ∧
      (∀ wds, fridayEntry.weekdays = some wds → ∀ d ∈ wds, 0 ≤ d ∧ d ≤ 6)) ∧
    ScheduleEntry.from_dict fridayEntry.to_dict = .ok fridayEntry :=
  ⟨⟨by decide, by decide, by decide⟩,
    (c8_roundtrip fridayEntry (by decide) (by decide) (by decide)).1⟩

/-- C10: ScheduleEntry.from_dict (the path load_schedules takes on every
scheduler tick) accepts a dictionary missing scenario, device and time,
yielding an entry with empty scenario and device and trigger time
00:00, while the separate validate_schedule_entry function — which
load_schedules never invokes — rejects the same dictionary. -/
theorem c10_from_dict_lenient (raw : RawSchedule)
    (hs : raw.scenario = none) (hd : raw.device = none)
    (ht : raw.time = none)
    (hw : ∀ wds, raw.weekdays = some wds → ∀ d ∈ wds, 0 ≤ d ∧ d ≤ 6) :
    ScheduleEntry.from_dict raw =
      .ok { scenario := "", device := "", hour := 0, minute := 0,
            weekdays := raw.weekdays, enabled := raw.enabled.getD true } ∧
    load_schedules [raw] =
      .ok [{ scenario := "", device := "", hour := 0, minute := 0,
             weekdays := raw.weekdays, enabled := raw.enabled.getD true }] ∧
    validate_schedule_entry raw 0 =
      .error "Planification [0]: 'scenario' requis" := by
  have hfrom : ScheduleEntry.from_dict raw =
      .ok { scenario := "", device := "", hour := 0, minute := 0,
            weekdays := raw.weekdays, enabled := raw.enabled.getD true } := by
    simp only [ScheduleEntry.from_dict, hs, hd, ht, Option.getD_none,
      ScheduleEntry.mkChecked]
    rw [if_neg (by decide), if_neg (by decide)]
    cases hwd : raw.weekdays with
    | none => rfl
    | some wds =>
      have hfil : wds.filter (fun d => ¬(0 ≤ d ∧ d ≤ 6)) = [] := by
        rw [List.filter_eq_nil_iff]
        intro d hdm
        simp only [decide_not, Bool.not_eq_true', decide_eq_false_iff_not,
          Decidable.not_not]
        exact hw wds hwd d hdm
      simp only [hfil]
      rfl
  refine ⟨hfrom, ?_, ?_⟩
  · simp only [load_schedules, List.mapM_cons, List.mapM_nil, hfrom]
    rfl
  · simp only [validate_schedule_entry, hs, falsyS]
    rfl

/-- C10 witness: the empty dictionary. -/
theorem c10_from_dict_lenient_witness :
    (({} : RawSchedule).scenario = none ∧ ({} : RawSchedule).device = none ∧
      ({} : RawSchedule).time = none) ∧
    ScheduleEntry.from_dict {} =
      .ok { scenario := "", device := "", hour := 0, minute := 0,
            weekdays := none, enabled := true } ∧
    validate_schedule_entry {} 0 =
      .error "Planification [0]: 'scenario' requis" :=
  ⟨⟨rfl, rfl, rfl⟩,
    ((c10_from_dict_lenient {} rfl rfl rfl (by decide)).1).trans (by decide),
    (c10_from_dict_lenient {} rfl rfl rfl (by decide)).2.2⟩
